import Mathlib

/-!
Verification of the line-item intake handler in `src/AWS/add-line-items.py`.

The handler receives a JSON-shaped invocation event, normalises its
`parameters` field, validates the required fields, parses the quantity,
inserts one row into the database and returns a response envelope.  This file
is a shallow embedding of that handler: JSON values become the inductive
`JVal`, the Python dictionaries become association lists with last-wins
lookup, Python exceptions become an `Except PyError` result, and the database
round trip becomes an explicit behaviour parameter `DbBehavior` together with
an `Effects` record tracking inserted rows and resource closes.
-/

/-- A JSON-shaped Python value, as delivered to the handler by the invocation
transport.  Dictionaries keep string keys (JSON object keys are strings) in
insertion order; lookups take the last binding, matching Python dict
overwrite semantics.  JSON floats do not occur in the requests considered
here and are omitted. -/
inductive JVal where
  | s (v : String)
  | i (v : Int)
  | b (v : Bool)
  | null
  | lst (xs : List JVal)
  | dict (kvs : List (String × JVal))
  deriving Repr, BEq

/-- Lookup in a dictionary represented as an association list: the value of
the last pair carrying the key (later bindings overwrite earlier ones, as in
a Python dict built by successive assignment). -/
def dictGet (d : List (String × JVal)) (k : String) : Option JVal :=
  ((d.filter (fun p => p.1 == k)).getLast?).map (fun p => p.2)

/-- Python truthiness (`bool(v)`) restricted to `JVal`: empty strings, zero,
`False`, `None` and empty containers are falsy, everything else truthy. -/
def truthy : JVal → Bool
  | .s v => !(v == "")
  | .i v => !(v == 0)
  | .b v => v
  | .null => false
  | .lst xs => !xs.isEmpty
  | .dict kvs => !kvs.isEmpty

/-- The Python exceptions the handler can raise or catch. -/
inductive PyError where
  | keyError (k : String)
  | typeError (msg : String)
  | valueError (msg : String)
  | attributeError (msg : String)
  deriving Repr, BEq

/-- The whitespace characters `int(str)` strips before parsing (ASCII set;
non-ASCII Unicode spaces do not occur in the requests considered here). -/
def pyIsSpace (c : Char) : Bool :=
  c == ' ' || c == '\t' || c == '\n' || c == '\r' || c == '\x0b' || c == '\x0c'

/-- Numeric value of a decimal digit character. -/
def digitVal (c : Char) : Nat := c.toNat - 48

/-- Value of a list of decimal digit characters, most significant first. -/
def digitsVal (cs : List Char) : Nat := cs.foldl (fun a c => a * 10 + digitVal c) 0

/-- After a leading digit, the remainder of a CPython integer literal body:
digits, with single underscores allowed only between digits. -/
def digitsBody : List Char → Bool
  | [] => true
  | ['_'] => false
  | '_' :: c :: rest => c.isDigit && digitsBody (c :: rest)
  | c :: rest => c.isDigit && digitsBody rest

/-- Parse an unsigned digit group per CPython `int(str)`: a leading decimal
digit, then `digitsBody`; the value ignores grouping underscores. -/
def pyDigits (cs : List Char) : Option Nat :=
  match cs with
  | [] => Option.none
  | c :: rest =>
      if c.isDigit && digitsBody rest then
        some (digitsVal ((c :: rest).filter (fun x => !(x == '_'))))
      else Option.none

/-- CPython `int(str)` in base 10: strip surrounding whitespace, accept one
optional sign, then a digit group (leading zeros allowed, underscores only
between digits); anything else fails (`ValueError`).  In particular floats
such as `"12.5"` are rejected. -/
def pyIntOfStr (str : String) : Option Int :=
  let cs := ((str.toList.dropWhile pyIsSpace).reverse.dropWhile pyIsSpace).reverse
  match cs with
  | '+' :: rest => (pyDigits rest).map (fun n => (n : Int))
  | '-' :: rest => (pyDigits rest).map (fun n => -(n : Int))
  | rest => (pyDigits rest).map (fun n => (n : Int))

/-- Python `int(v)` on a `JVal`: strings parse in base 10 (else
`ValueError`, the one exception the handler catches), integers pass through,
booleans coerce to 0/1, and `None`, lists and dicts raise `TypeError`. -/
def pyInt : JVal → Except PyError Int
  | .s v =>
      match pyIntOfStr v with
      | some n => .ok n
      | Option.none => .error (.valueError "invalid literal for int() with base 10")
  | .i v => .ok v
  | .b v => .ok (if v then 1 else 0)
  | .null => .error (.typeError "int() argument must be a string or a number")
  | .lst _ => .error (.typeError "int() argument must be a string or a number")
  | .dict _ => .error (.typeError "int() argument must be a string or a number")

mutual
/-- Python `repr` of a `JVal` (string escaping inside reprs is not modelled;
it is never observable in the requests considered here). -/
def pyRepr : JVal → String
  | .s v => "\x27" ++ v ++ "\x27"
  | .i v => toString v
  | .b true => "True"
  | .b false => "False"
  | .null => "None"
  | .lst xs => "[" ++ pyReprList xs ++ "]"
  | .dict kvs => "\x7b" ++ pyReprDict kvs ++ "\x7d"

/-- Comma-separated reprs of list elements. -/
def pyReprList : List JVal → String
  | [] => ""
  | [x] => pyRepr x
  | x :: y :: rest => pyRepr x ++ ", " ++ pyReprList (y :: rest)

/-- Comma-separated `key: value` reprs of dict entries. -/
def pyReprDict : List (String × JVal) → String
  | [] => ""
  | [(k, v)] => "\x27" ++ k ++ "\x27: " ++ pyRepr v
  | (k, v) :: e :: rest => "\x27" ++ k ++ "\x27: " ++ pyRepr v ++ ", " ++ pyReprDict (e :: rest)
end

/-- Python `str(v)` as used by f-string interpolation: strings are taken
verbatim, other values via their canonical rendering. -/
def pyStr : JVal → String
  | .s v => v
  | v => pyRepr v

/-- The `{"TEXT": {"body": ...}}` leaf of a response body. -/
structure TextBody where
  body : String
  deriving Repr, BEq

/-- The `responseBody` dictionary.  The success path adds four echo fields
next to `TEXT`; the error helper emits `TEXT` alone, so the four fields are
optional (`Option.none` means the key is absent from the dictionary). -/
structure ResponseBody where
  TEXT : TextBody
  requisition_id : Option JVal
  item_name : Option JVal
  quantity : Option String
  material_code : Option JVal
  deriving Repr, BEq

/-- The `functionResponse` wrapper. -/
structure FunctionResponse where
  responseBody : ResponseBody
  deriving Repr, BEq

/-- The inner `response` object: action-group and function echoes (Python
`event.get(...)`, so `JVal.null` when the key is absent or null) plus the
function response.  It has no status-code slot: in the source the status code
only ever appears as a top-level sibling of this object. -/
structure ResponseObj where
  actionGroup : JVal
  function : JVal
  functionResponse : FunctionResponse
  deriving Repr, BEq

/-- The full envelope returned to the transport.  `statusCode` is the
top-level sibling key the error helper adds; `Option.none` means the key is
absent (success responses). -/
structure Envelope where
  messageVersion : String
  response : ResponseObj
  statusCode : Option Nat
  deriving Repr, BEq

/-- The error helper `_agent_error` (lines 118-131): error envelope with the version marker,
the two echoes, a body holding only the TEXT message, and the status code as
a top-level sibling of `response`. -/
def agent_error (event : List (String × JVal)) (message : String) (status_code : Nat) :
    Envelope :=
  { messageVersion := "1.0"
    response :=
      { actionGroup := (dictGet event "actionGroup").getD .null
        function := (dictGet event "function").getD .null
        functionResponse :=
          { responseBody :=
              { TEXT := { body := message }
                requisition_id := Option.none
                item_name := Option.none
                quantity := Option.none
                material_code := Option.none } } }
    statusCode := some status_code }

/-- The error helper called without an explicit status code uses the default
400 from the parameter list. -/
def agent_error_default (event : List (String × JVal)) (message : String) : Envelope :=
  agent_error event message 400

/-- The success envelope of lines 94-113: version marker, echoes, the TEXT
body built from the f-string, and the four field echoes with `quantity`
rendered as `str(quantity_int)`. -/
def success_response (event : List (String × JVal)) (requisition_id item_name : JVal)
    (quantity_int : Int) (material_code : JVal) : Envelope :=
  { messageVersion := "1.0"
    response :=
      { actionGroup := (dictGet event "actionGroup").getD .null
        function := (dictGet event "function").getD .null
        functionResponse :=
          { responseBody :=
              { TEXT := { body := "✓ Added \x27" ++ pyStr item_name ++ "\x27 (Qty "
                    ++ toString quantity_int ++ ") to requisition "
                    ++ pyStr requisition_id ++ "." }
                requisition_id := some requisition_id
                item_name := some item_name
                quantity := some (toString quantity_int)
                material_code := some material_code } } }
    statusCode := Option.none }

/-- One persisted row of `requisitions_lineitems` (lines 67-79): the three
field values as received, the parsed quantity, and `datetime.utcnow()`
abstracted as a timestamp supplied to the handler. -/
structure Row where
  requisition_id : JVal
  item_name : JVal
  material_code : JVal
  quantity : Int
  created_at : Nat
  deriving Repr, BEq

/-- The behaviour of the environment for one database round trip of an invocation:
either every step succeeds, or the named step (`psycopg2.connect`,
`conn.cursor()`, `cur.execute`, `conn.commit`) raises with the given error
text. -/
inductive DbBehavior where
  | ok
  | connectFail (e : String)
  | cursorFail (e : String)
  | executeFail (e : String)
  | commitFail (e : String)
  deriving Repr, BEq

/-- Observable side effects of the persistence step: the rows actually
committed, whether the connection and cursor were opened, and how many times
each was closed. -/
structure Effects where
  rows : List Row
  connOpened : Bool
  curOpened : Bool
  connCloses : Nat
  curCloses : Nat
  deriving Repr, BEq

/-- Effects of a path that never reaches the persistence step. -/
def Effects.empty : Effects :=
  { rows := [], connOpened := false, curOpened := false, connCloses := 0, curCloses := 0 }

/-- The `try` block of lines 63-80 run under a given behaviour: in order,
connect, open a cursor, execute the insert, commit.  Returns the error text
if a step raised, which resources were opened before the raise, and the rows
committed (a row persists only when the commit succeeds; an uncommitted
execute is rolled back when the connection closes). -/
def dbAttempt (db : DbBehavior) (r : Row) : Option String × Bool × Bool × List Row :=
  match db with
  | .connectFail e => (some e, false, false, [])
  | .cursorFail e => (some e, true, false, [])
  | .executeFail e => (some e, true, true, [])
  | .commitFail e => (some e, true, true, [])
  | .ok => (Option.none, true, true, [r])

/-- The persistence step with its `finally` block (lines 85-89): after the
attempt, `if cur: cur.close()` and `if conn: conn.close()` run on every exit
path, so each opened resource is closed exactly once. -/
def persist (db : DbBehavior) (r : Row) : Option String × Effects :=
  match dbAttempt db r with
  | (err, connOpened, curOpened, rows) =>
      (err,
        { rows := rows
          connOpened := connOpened
          curOpened := curOpened
          connCloses := if connOpened then 1 else 0
          curCloses := if curOpened then 1 else 0 })

/-- The dict comprehension of line 33,
`{param["name"]: param["value"] for param in event["parameters"]}`, as the
association list of `(name, value)` pairs in iteration order (last-wins
lookup makes this the dict the comprehension builds).  A non-dict element or a dict
missing `name` or `value` raises (`TypeError` / `KeyError`); an unhashable
name (list or dict) raises `TypeError`; a hashable non-string name (number,
boolean, `None`) is kept by Python under a key no string lookup ever reaches,
so it is dropped here without changing any observable lookup. -/
def buildDict : List JVal → Except PyError (List (String × JVal))
  | [] => .ok []
  | p :: rest =>
      match p with
      | .dict kvs =>
          match dictGet kvs "name" with
          | Option.none => .error (.keyError "name")
          | some nm =>
              match dictGet kvs "value" with
              | Option.none => .error (.keyError "value")
              | some v =>
                  match nm with
                  | .lst _ => .error (.typeError "unhashable type")
                  | .dict _ => .error (.typeError "unhashable type")
                  | .s n =>
                      match buildDict rest with
                      | .error e => .error e
                      | .ok d => .ok ((n, v) :: d)
                  | _ =>
                      match buildDict rest with
                      | .error e => .error e
                      | .ok d => .ok d
      | _ => .error (.typeError "element of parameters is not subscriptable by a string")

/-- Parameter normalisation, lines 32-35: a list goes through the dict
comprehension, a dict is used verbatim, an absent field defaults to the empty
dict.  A present non-list non-dict value is bound to `parameters` unchanged
and then raises `AttributeError` at the first `parameters.get` (line 42);
since only logging separates the two lines, that raise is folded in here. -/
def normalizeParams : Option JVal → Except PyError (List (String × JVal))
  | some (.lst ps) => buildDict ps
  | some (.dict kvs) => .ok kvs
  | Option.none => .ok []
  | some _ => .error (.attributeError "object has no attribute get")

/-- The names-and-values of a well-shaped pair list, in iteration order:
what the comprehension yields when every element is a dict with a string
`name` and a `value`. -/
def pairsOf (ps : List JVal) : List (String × JVal) :=
  ps.foldr
    (fun p acc =>
      match p with
      | .dict kvs =>
          match dictGet kvs "name", dictGet kvs "value" with
          | some (.s n), some v => (n, v) :: acc
          | _, _ => acc
      | _ => acc)
    []

/-- An element of a parameter list the comprehension accepts and keeps: a
dict whose `name` is a string and whose `value` is present. -/
def isNameValueDict : JVal → Bool
  | .dict kvs =>
      (match dictGet kvs "name" with
        | some (.s _) => true
        | _ => false)
      && (dictGet kvs "value").isSome
  | _ => false

/-- The handler `lambda_handler` (lines 26-113).  The event is the invocation dict; the
database behaviour and the current UTC timestamp are explicit parameters.
`.ok` carries the returned envelope together with the persistence effects;
`.error` is an exception escaping to the transport as an unhandled fault. -/
def lambda_handler (event : List (String × JVal)) (db : DbBehavior) (now : Nat) :
    Except PyError (Envelope × Effects) :=
  match normalizeParams (dictGet event "parameters") with
  | .error e => .error e
  | .ok parameters =>
    let requisition_id := (dictGet parameters "requisition_id").getD (.s "")
    let item_name := (dictGet parameters "item_name").getD (.s "")
    let quantity := (dictGet parameters "quantity").getD (.s "")
    let material_code := (dictGet parameters "material_code").getD (.s "")
    let missing := ["requisition_id", "item_name", "quantity"].filter
        (fun k => !truthy ((dictGet parameters k).getD .null))
    if !missing.isEmpty then
      .ok (agent_error event
            ("Missing required field(s): " ++ String.intercalate ", " missing) 400,
          Effects.empty)
    else
      match pyInt quantity with
      | .error (.valueError _) =>
          .ok (agent_error event "Quantity must be an integer" 400, Effects.empty)
      | .error e => .error e
      | .ok quantity_int =>
          let row : Row :=
            { requisition_id := requisition_id
              item_name := item_name
              material_code := material_code
              quantity := quantity_int
              created_at := now }
          match persist db row with
          | (some err, eff) =>
              .ok (agent_error event ("Database error: " ++ err) 500, eff)
          | (Option.none, eff) =>
              .ok (success_response event requisition_id item_name quantity_int
                    material_code, eff)

/-- The error text a database behaviour raises, if any. -/
def dbErrText : DbBehavior → Option String
  | .ok => Option.none
  | .connectFail e => some e
  | .cursorFail e => some e
  | .executeFail e => some e
  | .commitFail e => some e

/-- A quantity value `int()` does not reject with an uncaught `TypeError`
after passing the truthiness check: anything but a non-empty list or dict
(`None` and the empty containers are falsy and never reach `int()`). -/
def quantitySafe : JVal → Bool
  | .lst xs => xs.isEmpty
  | .dict kvs => kvs.isEmpty
  | _ => true

/-- Events on which the handler is guaranteed to return rather than raise:
the `parameters` field is absent, a dict, or a list of well-shaped
name/value dicts, and the normalised quantity value cannot make `int()`
raise an uncaught `TypeError`. -/
def eventHandled (event : List (String × JVal)) : Bool :=
  match dictGet event "parameters" with
  | Option.none => true
  | some (.dict kvs) => quantitySafe ((dictGet kvs "quantity").getD .null)
  | some (.lst ps) =>
      ps.all isNameValueDict && quantitySafe ((dictGet (pairsOf ps) "quantity").getD .null)
  | some _ => false

/-- A well-formed request carrying all four fields in Bedrock list form. -/
def sampleEventOk : List (String × JVal) :=
  [("actionGroup", .s "ag"), ("function", .s "fn"),
   ("parameters", .lst
     [ .dict [("name", .s "requisition_id"), ("value", .s "REQ1")],
       .dict [("name", .s "item_name"), ("value", .s "Bolt")],
       .dict [("name", .s "quantity"), ("value", .s "10")],
       .dict [("name", .s "material_code"), ("value", .s "MC5")] ])]

/-- The normalised parameters of `sampleEventOk`. -/
def sampleParamsOk : List (String × JVal) :=
  [("requisition_id", .s "REQ1"), ("item_name", .s "Bolt"),
   ("quantity", .s "10"), ("material_code", .s "MC5")]

/-- A request whose parameters dict lacks all three required fields. -/
def sampleEventAllMissing : List (String × JVal) :=
  [("actionGroup", .s "ag"), ("parameters", .dict [("material_code", .s "MC5")])]

/-- A request whose quantity is the non-numeric string `"abc"`. -/
def sampleEventBadQty : List (String × JVal) :=
  [("parameters", .dict
     [("requisition_id", .s "R9"), ("item_name", .s "Nut"), ("quantity", .s "abc")])]

/-- A request with a negative quantity. -/
def sampleEventNegQty : List (String × JVal) :=
  [("parameters", .dict
     [("requisition_id", .s "R9"), ("item_name", .s "Nut"), ("quantity", .s "-3")])]

/-- A request supplying quantity as the string `"0"`. -/
def sampleEventZeroQty : List (String × JVal) :=
  [("parameters", .dict
     [("requisition_id", .s "R1"), ("item_name", .s "Washer"), ("quantity", .s "0")])]

/-- A request without any `parameters` field. -/
def sampleEventNoParams : List (String × JVal) :=
  [("function", .s "add_line_item")]

/-- A request whose parameters list contains an empty dict: line 33 raises
`KeyError` on it. -/
def sampleEventBadShape : List (String × JVal) :=
  [("parameters", .lst [.dict []])]

/-- A request whose quantity string is non-canonical (`"007"`). -/
def sampleEventPaddedQty : List (String × JVal) :=
  [("parameters", .dict
     [("requisition_id", .s "R7"), ("item_name", .s "Screw"), ("quantity", .s "007")])]

/-- The embedded status code of a handler result, if the result is a
returned envelope carrying one. -/
def envelopeStatus (x : Except PyError (Envelope × Effects)) : Option Nat :=
  match x with
  | .ok p => p.1.statusCode
  | .error _ => Option.none

theorem pyStr_s (v : String) : pyStr (.s v) = v := rfl

theorem truthy_s (v : String) : truthy (.s v) = !(v == "") := rfl

theorem pyIntOfStr_empty : pyIntOfStr "" = Option.none := rfl

/-- A string the parser accepts is non-empty, hence truthy. -/
theorem truthy_of_pyIntOfStr {q : String} {n : Int} (h : pyIntOfStr q = some n) :
    truthy (.s q) = true := by
  rw [truthy_s]
  rcases eq_or_ne q "" with rfl | hq
  · rw [pyIntOfStr_empty] at h
    exact absurd h (by simp)
  · simp [hq]

/-- When normalisation yields truthy string `requisition_id` and `item_name`
and a parseable quantity string, the handler reaches the persistence step
with exactly the extracted row and returns its outcome: the 500 error
envelope on a database failure, the success envelope otherwise. -/
theorem handler_valid_core (event ps : List (String × JVal)) (r i q : String) (n : Int)
    (db : DbBehavior) (now : Nat)
    (hps : normalizeParams (dictGet event "parameters") = .ok ps)
    (hr : dictGet ps "requisition_id" = some (.s r)) (hr0 : r ≠ "")
    (hi : dictGet ps "item_name" = some (.s i)) (hi0 : i ≠ "")
    (hq : dictGet ps "quantity" = some (.s q)) (hn : pyIntOfStr q = some n) :
    lambda_handler event db now =
      (match persist db
          { requisition_id := .s r, item_name := .s i,
            material_code := (dictGet ps "material_code").getD (.s ""),
            quantity := n, created_at := now } with
        | (some err, eff) => .ok (agent_error event ("Database error: " ++ err) 500, eff)
        | (Option.none, eff) =>
            .ok (success_response event (.s r) (.s i) n
                  ((dictGet ps "material_code").getD (.s "")), eff)) := by
  have hq0 : truthy (.s q) = true := truthy_of_pyIntOfStr hn
  have hr1 : (r == "") = false := by simp [hr0]
  have hi1 : (i == "") = false := by simp [hi0]
  simp only [lambda_handler, hps, hr, hi, hq, List.filter, Option.getD]
  simp [truthy_s, hr1, hi1, hq0, pyInt, hn]

/-- Claim C1: for every request whose normalized parameters contain non-empty
string `requisition_id` and `item_name` and a quantity string parseable as an
integer, with a succeeding database insert, the handler returns a success
envelope whose TEXT body is exactly the add-confirmation sentence and whose
responseBody echoes the four fields (quantity as its decimal string form);
an unsupplied `material_code` is carried as the empty string in both the
inserted row and the echo. -/
theorem add_line_item_success_envelope (event ps : List (String × JVal))
    (r i q : String) (n : Int) (now : Nat)
    (hps : normalizeParams (dictGet event "parameters") = .ok ps)
    (hr : dictGet ps "requisition_id" = some (.s r)) (hr0 : r ≠ "")
    (hi : dictGet ps "item_name" = some (.s i)) (hi0 : i ≠ "")
    (hq : dictGet ps "quantity" = some (.s q)) (hn : pyIntOfStr q = some n) :
    lambda_handler event DbBehavior.ok now =
      .ok
        ({ messageVersion := "1.0"
           response :=
             { actionGroup := (dictGet event "actionGroup").getD .null
               function := (dictGet event "function").getD .null
               functionResponse :=
                 { responseBody :=
                     { TEXT := { body := "✓ Added \x27" ++ i ++ "\x27 (Qty "
                           ++ toString n ++ ") to requisition " ++ r ++ "." }
                       requisition_id := some (.s r)
                       item_name := some (.s i)
                       quantity := some (toString n)
                       material_code := some ((dictGet ps "material_code").getD (.s "")) } } }
           statusCode := Option.none },
         { rows := [{ requisition_id := .s r, item_name := .s i
                      material_code := (dictGet ps "material_code").getD (.s "")
                      quantity := n, created_at := now }]
           connOpened := true, curOpened := true, connCloses := 1, curCloses := 1 })
      ∧ (dictGet ps "material_code" = Option.none →
          (dictGet ps "material_code").getD (.s "") = .s "") := by
  constructor
  · rw [handler_valid_core event ps r i q n DbBehavior.ok now hps hr hr0 hi hi0 hq hn]
    simp [persist, dbAttempt, success_response, pyStr_s]
  · intro h
    simp [h]

/-- Claim C1 witness: the well-formed sample request inserts the expected row
and returns the expected success envelope. -/
theorem add_line_item_success_envelope_witness :
    lambda_handler sampleEventOk DbBehavior.ok 7 =
      .ok
        ({ messageVersion := "1.0"
           response :=
             { actionGroup := .s "ag"
               function := .s "fn"
               functionResponse :=
                 { responseBody :=
                     { TEXT := { body := "✓ Added \x27Bolt\x27 (Qty 10) to requisition REQ1." }
                       requisition_id := some (.s "REQ1")
                       item_name := some (.s "Bolt")
                       quantity := some "10"
                       material_code := some (.s "MC5") } } }
           statusCode := Option.none },
         { rows := [{ requisition_id := .s "REQ1", item_name := .s "Bolt"
                      material_code := .s "MC5", quantity := 10, created_at := 7 }]
           connOpened := true, curOpened := true, connCloses := 1, curCloses := 1 })
      ∧ (dictGet sampleParamsOk "material_code" = Option.none →
          (dictGet sampleParamsOk "material_code").getD (.s "") = .s "") :=
  add_line_item_success_envelope sampleEventOk sampleParamsOk "REQ1" "Bolt" "10" 10 7
    rfl rfl (by decide) rfl (by decide) rfl rfl

/-- Claim C2: whenever any of requisition_id, item_name, quantity is absent
or falsy in the normalized parameters, the handler returns a status-400
error envelope whose message lists exactly the missing field names joined by
", " in the fixed order requisition_id, item_name, quantity, and inserts no
row. -/
theorem missing_fields_rejected (event ps : List (String × JVal)) (db : DbBehavior) (now : Nat)
    (hps : normalizeParams (dictGet event "parameters") = .ok ps)
    (hmiss : ["requisition_id", "item_name", "quantity"].filter
        (fun k => !truthy ((dictGet ps k).getD .null)) ≠ []) :
    lambda_handler event db now =
      .ok
        ({ messageVersion := "1.0"
           response :=
             { actionGroup := (dictGet event "actionGroup").getD .null
               function := (dictGet event "function").getD .null
               functionResponse :=
                 { responseBody :=
                     { TEXT := { body :=
                           ("Missing required field(s): "
                             ++ String.intercalate ", "
                               (["requisition_id", "item_name", "quantity"].filter
                                 (fun k => !truthy ((dictGet ps k).getD .null)))) }
                       requisition_id := Option.none
                       item_name := Option.none
                       quantity := Option.none
                       material_code := Option.none } } }
           statusCode := some 400 },
         Effects.empty) := by
  have h1 : (["requisition_id", "item_name", "quantity"].filter
      (fun k => !truthy ((dictGet ps k).getD .null))).isEmpty = false := by
    simp [List.isEmpty_iff, hmiss]
  simp only [lambda_handler, hps, h1]
  simp [agent_error]

/-- Claim C2 witness: a request missing all three required fields. -/
theorem missing_fields_rejected_witness :
    lambda_handler sampleEventAllMissing DbBehavior.ok 3 =
      .ok
        ({ messageVersion := "1.0"
           response :=
             { actionGroup := .s "ag"
               function := JVal.null
               functionResponse :=
                 { responseBody :=
                     { TEXT := { body :=
                           "Missing required field(s): requisition_id, item_name, quantity" }
                       requisition_id := Option.none
                       item_name := Option.none
                       quantity := Option.none
                       material_code := Option.none } } }
           statusCode := some 400 },
         Effects.empty) :=
  missing_fields_rejected sampleEventAllMissing [("material_code", .s "MC5")]
    DbBehavior.ok 3 rfl (by decide)

/-- Claim C3: when the required fields are present and truthy but the
quantity string does not parse as a base-10 integer, the handler returns a
status-400 error envelope with message exactly "Quantity must be an
integer" and inserts no row; no positivity check exists, so a parseable
negative quantity is accepted and inserted. -/
theorem quantity_must_be_integer :
    (∀ (event ps : List (String × JVal)) (r i q : String) (db : DbBehavior) (now : Nat),
      normalizeParams (dictGet event "parameters") = .ok ps →
      dictGet ps "requisition_id" = some (.s r) → r ≠ "" →
      dictGet ps "item_name" = some (.s i) → i ≠ "" →
      dictGet ps "quantity" = some (.s q) → q ≠ "" →
      pyIntOfStr q = Option.none →
      lambda_handler event db now =
        .ok (agent_error event "Quantity must be an integer" 400, Effects.empty))
    ∧ (∀ (event ps : List (String × JVal)) (r i q : String) (n : Int) (now : Nat),
      normalizeParams (dictGet event "parameters") = .ok ps →
      dictGet ps "requisition_id" = some (.s r) → r ≠ "" →
      dictGet ps "item_name" = some (.s i) → i ≠ "" →
      dictGet ps "quantity" = some (.s q) →
      pyIntOfStr q = some n → n < 0 →
      ∃ env eff, lambda_handler event DbBehavior.ok now = .ok (env, eff)
        ∧ env.statusCode = Option.none
        ∧ eff.rows = [{ requisition_id := .s r, item_name := .s i
                        material_code := (dictGet ps "material_code").getD (.s "")
                        quantity := n, created_at := now }]) := by
  constructor
  · intro event ps r i q db now hps hr hr0 hi hi0 hq hq0 hbad
    have hr1 : (r == "") = false := by simp [hr0]
    have hi1 : (i == "") = false := by simp [hi0]
    have hq1 : (q == "") = false := by simp [hq0]
    simp only [lambda_handler, hps, hr, hi, hq, List.filter, Option.getD]
    simp [truthy_s, hr1, hi1, hq1, pyInt, hbad]
  · intro event ps r i q n now hps hr hr0 hi hi0 hq hn hneg
    rw [handler_valid_core event ps r i q n DbBehavior.ok now hps hr hr0 hi hi0 hq hn]
    exact ⟨_, _, rfl, rfl, rfl⟩

/-- Claim C3 witness: quantity "abc" is rejected; quantity "-3" is accepted. -/
theorem quantity_must_be_integer_witness :
    (lambda_handler sampleEventBadQty DbBehavior.ok 3 =
      .ok (agent_error sampleEventBadQty "Quantity must be an integer" 400, Effects.empty))
    ∧ (∃ env eff, lambda_handler sampleEventNegQty DbBehavior.ok 3 = .ok (env, eff)
        ∧ env.statusCode = Option.none
        ∧ eff.rows = [{ requisition_id := .s "R9", item_name := .s "Nut"
                        material_code := .s "", quantity := -3, created_at := 3 }]) :=
  ⟨quantity_must_be_integer.1 sampleEventBadQty
      [("requisition_id", .s "R9"), ("item_name", .s "Nut"), ("quantity", .s "abc")]
      "R9" "Nut" "abc" DbBehavior.ok 3 rfl rfl (by decide) rfl (by decide) rfl (by decide) rfl,
   quantity_must_be_integer.2 sampleEventNegQty
      [("requisition_id", .s "R9"), ("item_name", .s "Nut"), ("quantity", .s "-3")]
      "R9" "Nut" "-3" (-3) 3 rfl rfl (by decide) rfl (by decide) rfl rfl (by decide)⟩

/-- Claim C4: when validation passes and any persistence step (connect,
cursor, execute, commit) fails, the handler returns a status-500 error
envelope with message "Database error: " plus the underlying text and no
row is persisted; on every exit path of the persistence step each opened
resource is closed exactly once. -/
theorem database_failure_envelope (event ps : List (String × JVal))
    (r i q : String) (n : Int) (db : DbBehavior) (now : Nat)
    (hps : normalizeParams (dictGet event "parameters") = .ok ps)
    (hr : dictGet ps "requisition_id" = some (.s r)) (hr0 : r ≠ "")
    (hi : dictGet ps "item_name" = some (.s i)) (hi0 : i ≠ "")
    (hq : dictGet ps "quantity" = some (.s q)) (hn : pyIntOfStr q = some n) :
    (∀ e, dbErrText db = some e →
      ∃ eff, lambda_handler event db now =
          .ok (agent_error event ("Database error: " ++ e) 500, eff)
        ∧ eff.rows = []
        ∧ eff.connCloses = (if eff.connOpened then 1 else 0)
        ∧ eff.curCloses = (if eff.curOpened then 1 else 0))
    ∧ (dbErrText db = Option.none →
      ∃ env eff, lambda_handler event db now = .ok (env, eff)
        ∧ eff.connOpened = true ∧ eff.curOpened = true
        ∧ eff.connCloses = 1 ∧ eff.curCloses = 1) := by
  have hcore := handler_valid_core event ps r i q n db now hps hr hr0 hi hi0 hq hn
  constructor
  · intro e he
    cases db with
    | ok => exact absurd he (by simp [dbErrText])
    | connectFail f =>
        have hf : f = e := by simpa [dbErrText] using he
        subst hf
        exact ⟨_, by simpa [persist, dbAttempt] using hcore, rfl, rfl, rfl⟩
    | cursorFail f =>
        have hf : f = e := by simpa [dbErrText] using he
        subst hf
        exact ⟨_, by simpa [persist, dbAttempt] using hcore, rfl, rfl, rfl⟩
    | executeFail f =>
        have hf : f = e := by simpa [dbErrText] using he
        subst hf
        exact ⟨_, by simpa [persist, dbAttempt] using hcore, rfl, rfl, rfl⟩
    | commitFail f =>
        have hf : f = e := by simpa [dbErrText] using he
        subst hf
        exact ⟨_, by simpa [persist, dbAttempt] using hcore, rfl, rfl, rfl⟩
  · intro he
    cases db with
    | ok => exact ⟨_, _, by simpa [persist, dbAttempt] using hcore, rfl, rfl, rfl, rfl⟩
    | connectFail f => exact absurd he (by simp [dbErrText])
    | cursorFail f => exact absurd he (by simp [dbErrText])
    | executeFail f => exact absurd he (by simp [dbErrText])
    | commitFail f => exact absurd he (by simp [dbErrText])

/-- Claim C4 witness: a commit failure on the well-formed sample request. -/
theorem database_failure_envelope_witness :
    (∃ eff, lambda_handler sampleEventOk (DbBehavior.commitFail "boom") 7 =
        .ok (agent_error sampleEventOk "Database error: boom" 500, eff)
      ∧ eff.rows = []
      ∧ eff.connCloses = (if eff.connOpened then 1 else 0)
      ∧ eff.curCloses = (if eff.curOpened then 1 else 0)) :=
  (database_failure_envelope sampleEventOk sampleParamsOk "REQ1" "Bolt" "10" 10
      (DbBehavior.commitFail "boom") 7 rfl rfl (by decide) rfl (by decide) rfl rfl).1
    "boom" rfl

/-- Claim C5 counterexample: with truthy `requisition_id` and `item_name`
and quantity supplied as the string `"0"`, the handler does not reject the
request as missing: the string `"0"` is truthy, so the request is accepted,
a row with quantity 0 is inserted, and the returned envelope is the success
envelope with no status code at all. -/
theorem quantity_zero_rejected_counterexample :
    lambda_handler sampleEventZeroQty DbBehavior.ok 4 =
      .ok
        ({ messageVersion := "1.0"
           response :=
             { actionGroup := JVal.null
               function := JVal.null
               functionResponse :=
                 { responseBody :=
                     { TEXT := { body := "✓ Added \x27Washer\x27 (Qty 0) to requisition R1." }
                       requisition_id := some (.s "R1")
                       item_name := some (.s "Washer")
                       quantity := some "0"
                       material_code := some (.s "") } } }
           statusCode := Option.none },
         { rows := [{ requisition_id := .s "R1", item_name := .s "Washer"
                      material_code := .s "", quantity := 0, created_at := 4 }]
           connOpened := true, curOpened := true, connCloses := 1, curCloses := 1 })
    ∧ envelopeStatus (lambda_handler sampleEventZeroQty DbBehavior.ok 4) = Option.none :=
  ⟨rfl, rfl⟩

/-- Claim C5 (amended): with truthy string `requisition_id` and `item_name`,
a quantity supplied as the string `"0"` is truthy, so it passes the
missing-field check, parses to the integer 0, and the request is accepted: a
row with quantity 0 is inserted and the success envelope is returned. -/
theorem quantity_zero_accepted (event ps : List (String × JVal)) (r i : String) (now : Nat)
    (hps : normalizeParams (dictGet event "parameters") = .ok ps)
    (hr : dictGet ps "requisition_id" = some (.s r)) (hr0 : r ≠ "")
    (hi : dictGet ps "item_name" = some (.s i)) (hi0 : i ≠ "")
    (hq : dictGet ps "quantity" = some (.s "0")) :
    lambda_handler event DbBehavior.ok now =
      .ok (success_response event (.s r) (.s i) 0 ((dictGet ps "material_code").getD (.s "")),
        { rows := [{ requisition_id := .s r, item_name := .s i
                     material_code := (dictGet ps "material_code").getD (.s "")
                     quantity := 0, created_at := now }]
          connOpened := true, curOpened := true, connCloses := 1, curCloses := 1 }) := by
  rw [handler_valid_core event ps r i "0" 0 DbBehavior.ok now hps hr hr0 hi hi0 hq rfl]
  simp [persist, dbAttempt]

/-- Claim C5 witness: the quantity-`"0"` sample request is accepted. -/
theorem quantity_zero_accepted_witness :
    lambda_handler sampleEventZeroQty DbBehavior.ok 9 =
      .ok (success_response sampleEventZeroQty (.s "R1") (.s "Washer") 0 (.s ""),
        { rows := [{ requisition_id := .s "R1", item_name := .s "Washer"
                     material_code := .s "", quantity := 0, created_at := 9 }]
          connOpened := true, curOpened := true, connCloses := 1, curCloses := 1 }) :=
  quantity_zero_accepted sampleEventZeroQty
    [("requisition_id", .s "R1"), ("item_name", .s "Washer"), ("quantity", .s "0")]
    "R1" "Washer" 9 rfl rfl (by decide) rfl (by decide) rfl

/-- On a list whose elements all carry a string `name` and a `value`, the
comprehension succeeds and yields exactly the name/value pairs in iteration
order. -/
theorem buildDict_eq_pairsOf (ps : List JVal) (h : ps.all isNameValueDict = true) :
    buildDict ps = .ok (pairsOf ps) := by
  induction ps with
  | nil => rfl
  | cons p rest ih =>
      rw [List.all_cons, Bool.and_eq_true] at h
      obtain ⟨hp, hrest⟩ := h
      cases p with
      | dict kvs =>
          rw [isNameValueDict, Bool.and_eq_true] at hp
          obtain ⟨hname, hval⟩ := hp
          cases hnm : dictGet kvs "name" with
          | none => rw [hnm] at hname; exact absurd hname (by simp)
          | some nv =>
              cases hv : dictGet kvs "value" with
              | none => rw [hv] at hval; exact absurd hval (by simp)
              | some v =>
                  cases nv with
                  | s n =>
                      simp only [buildDict, hnm, hv, pairsOf, List.foldr_cons, ih hrest]
                  | i m => rw [hnm] at hname; exact absurd hname (by simp)
                  | b bv => rw [hnm] at hname; exact absurd hname (by simp)
                  | null => rw [hnm] at hname; exact absurd hname (by simp)
                  | lst xs => rw [hnm] at hname; exact absurd hname (by simp)
                  | dict d => rw [hnm] at hname; exact absurd hname (by simp)
      | s v => exact absurd hp (by simp [isNameValueDict])
      | i v => exact absurd hp (by simp [isNameValueDict])
      | b v => exact absurd hp (by simp [isNameValueDict])
      | null => exact absurd hp (by simp [isNameValueDict])
      | lst xs => exact absurd hp (by simp [isNameValueDict])

/-- Lookup returns the value of the last binding of a key: any earlier
bindings in `l₁` are overwritten, and later pairs not carrying the key do
not interfere. -/
theorem dictGet_last_wins (l₁ l₂ : List (String × JVal)) (k : String) (v : JVal)
    (h : ∀ p ∈ l₂, p.1 ≠ k) : dictGet (l₁ ++ (k, v) :: l₂) k = some v := by
  unfold dictGet
  rw [List.filter_append]
  have h2 : List.filter (fun p => p.1 == k) l₂ = [] := by
    rw [List.filter_eq_nil_iff]
    intro p hp
    simp [h p hp]
  simp [h2, List.filter_cons, List.getLast?_concat]

/-- Claim C6: parameter normalization is a pure function of the parameters
field: the pair-sequence form yields the name/value mapping in iteration
order with last-seen-wins lookup on repeated names, and agrees with the same
parameters given directly as a mapping; a mapping is used verbatim; an
absent field yields the empty mapping, on which required-field validation
reports all three required fields missing. -/
theorem parameter_normalization :
    (∀ ps : List JVal, ps.all isNameValueDict = true →
      buildDict ps = .ok (pairsOf ps))
    ∧ (∀ ps : List JVal, ps.all isNameValueDict = true →
      normalizeParams (some (.lst ps)) = normalizeParams (some (.dict (pairsOf ps))))
    ∧ (∀ (l₁ l₂ : List (String × JVal)) (k : String) (v : JVal),
      (∀ p ∈ l₂, p.1 ≠ k) → dictGet (l₁ ++ (k, v) :: l₂) k = some v)
    ∧ (∀ kvs : List (String × JVal), normalizeParams (some (.dict kvs)) = .ok kvs)
    ∧ normalizeParams Option.none = .ok []
    ∧ (∀ (event : List (String × JVal)) (db : DbBehavior) (now : Nat),
      dictGet event "parameters" = Option.none →
      lambda_handler event db now =
        .ok (agent_error event
              "Missing required field(s): requisition_id, item_name, quantity" 400,
            Effects.empty)) := by
  refine ⟨buildDict_eq_pairsOf, ?_, dictGet_last_wins, fun kvs => rfl, rfl, ?_⟩
  · intro ps h
    rw [normalizeParams, buildDict_eq_pairsOf ps h, normalizeParams]
  · intro event db now h
    simp only [lambda_handler]
    rw [h]
    rfl

/-- Claim C6 witness: a one-element pair sequence normalizes to the
corresponding mapping, and a request without parameters is rejected with all
three required fields missing. -/
theorem parameter_normalization_witness :
    buildDict [.dict [("name", .s "quantity"), ("value", .s "5")]] =
      .ok [("quantity", .s "5")]
    ∧ lambda_handler sampleEventNoParams DbBehavior.ok 0 =
      .ok (agent_error sampleEventNoParams
            "Missing required field(s): requisition_id, item_name, quantity" 400,
          Effects.empty) :=
  ⟨parameter_normalization.1 [.dict [("name", .s "quantity"), ("value", .s "5")]] rfl,
   parameter_normalization.2.2.2.2.2 sampleEventNoParams DbBehavior.ok 0 rfl⟩

/-- Once normalisation has produced a parameters dict whose quantity value
cannot make `int()` raise an uncaught `TypeError`, the handler always
returns an envelope. -/
theorem handler_ok_of_params (event ps : List (String × JVal)) (db : DbBehavior) (now : Nat)
    (hps : normalizeParams (dictGet event "parameters") = .ok ps)
    (hq : quantitySafe ((dictGet ps "quantity").getD .null) = true) :
    ∃ env eff, lambda_handler event db now = .ok (env, eff) := by
  cases hm : (["requisition_id", "item_name", "quantity"].filter
      (fun k => !truthy ((dictGet ps k).getD .null))).isEmpty with
  | false =>
      have hres : lambda_handler event db now =
          .ok (agent_error event
                ("Missing required field(s): " ++ String.intercalate ", "
                  (["requisition_id", "item_name", "quantity"].filter
                    (fun k => !truthy ((dictGet ps k).getD .null)))) 400,
              Effects.empty) := by
        simp only [lambda_handler, hps, hm]
        rfl
      exact ⟨_, _, hres⟩
  | true =>
      have hm' := hm
      rw [List.isEmpty_iff, List.filter_eq_nil_iff] at hm'
      have hqt : truthy ((dictGet ps "quantity").getD .null) = true := by
        have := hm' "quantity" (by simp)
        simpa using this
      cases hsome : dictGet ps "quantity" with
      | none => rw [hsome] at hqt; exact absurd hqt (by simp [truthy])
      | some v =>
          rw [hsome] at hqt hq
          cases v with
          | s str =>
              cases hp : pyIntOfStr str with
              | none =>
                  have hres : lambda_handler event db now =
                      .ok (agent_error event "Quantity must be an integer" 400,
                          Effects.empty) := by
                    simp only [lambda_handler, hps, hm, hsome]
                    simp [pyInt, hp]
                  exact ⟨_, _, hres⟩
              | some n =>
                  cases hper : persist db
                      { requisition_id := (dictGet ps "requisition_id").getD (.s "")
                        item_name := (dictGet ps "item_name").getD (.s "")
                        material_code := (dictGet ps "material_code").getD (.s "")
                        quantity := n, created_at := now } with
                  | mk err eff =>
                      cases err with
                      | none =>
                          have hres : lambda_handler event db now =
                              .ok (success_response event
                                    ((dictGet ps "requisition_id").getD (.s ""))
                                    ((dictGet ps "item_name").getD (.s "")) n
                                    ((dictGet ps "material_code").getD (.s "")), eff) := by
                            simp only [lambda_handler, hps, hm, hsome]
                            simp [pyInt, hp, hper]
                          exact ⟨_, _, hres⟩
                      | some e =>
                          have hres : lambda_handler event db now =
                              .ok (agent_error event ("Database error: " ++ e) 500, eff) := by
                            simp only [lambda_handler, hps, hm, hsome]
                            simp [pyInt, hp, hper]
                          exact ⟨_, _, hres⟩
          | i m =>
              cases hper : persist db
                  { requisition_id := (dictGet ps "requisition_id").getD (.s "")
                    item_name := (dictGet ps "item_name").getD (.s "")
                    material_code := (dictGet ps "material_code").getD (.s "")
                    quantity := m, created_at := now } with
              | mk err eff =>
                  cases err with
                  | none =>
                      have hres : lambda_handler event db now =
                          .ok (success_response event
                                ((dictGet ps "requisition_id").getD (.s ""))
                                ((dictGet ps "item_name").getD (.s "")) m
                                ((dictGet ps "material_code").getD (.s "")), eff) := by
                        simp only [lambda_handler, hps, hm, hsome]
                        simp [pyInt, hper]
                      exact ⟨_, _, hres⟩
                  | some e =>
                      have hres : lambda_handler event db now =
                          .ok (agent_error event ("Database error: " ++ e) 500, eff) := by
                        simp only [lambda_handler, hps, hm, hsome]
                        simp [pyInt, hper]
                      exact ⟨_, _, hres⟩
          | b bv =>
              cases hper : persist db
                  { requisition_id := (dictGet ps "requisition_id").getD (.s "")
                    item_name := (dictGet ps "item_name").getD (.s "")
                    material_code := (dictGet ps "material_code").getD (.s "")
                    quantity := if bv then 1 else 0, created_at := now } with
              | mk err eff =>
                  cases err with
                  | none =>
                      have hres : lambda_handler event db now =
                          .ok (success_response event
                                ((dictGet ps "requisition_id").getD (.s ""))
                                ((dictGet ps "item_name").getD (.s ""))
                                (if bv then 1 else 0)
                                ((dictGet ps "material_code").getD (.s "")), eff) := by
                        simp only [lambda_handler, hps, hm, hsome]
                        simp [pyInt, hper]
                      exact ⟨_, _, hres⟩
                  | some e =>
                      have hres : lambda_handler event db now =
                          .ok (agent_error event ("Database error: " ++ e) 500, eff) := by
                        simp only [lambda_handler, hps, hm, hsome]
                        simp [pyInt, hper]
                      exact ⟨_, _, hres⟩
          | null => exact absurd hqt (by simp [truthy])
          | lst xs =>
              simp [quantitySafe, List.isEmpty_iff] at hq
              simp [truthy, hq] at hqt
          | dict kvs =>
              simp [quantitySafe, List.isEmpty_iff] at hq
              simp [truthy, hq] at hqt

/-- Claim C7 counterexample: normalization is not total over all shapes of
the parameters field, and the handler can raise to the transport: when the
parameters list contains an element without a `name` key, the dict
comprehension of line 33 raises `KeyError`, which no handler code catches. -/
theorem handler_unhandled_fault_counterexample :
    lambda_handler sampleEventBadShape DbBehavior.ok 0 = .error (.keyError "name")
    ∧ normalizeParams (some (.lst [.dict []])) = .error (.keyError "name") :=
  ⟨rfl, rfl⟩

/-- Claim C7 (amended): for every request whose parameters field is absent,
a mapping, or a sequence of mappings each carrying a string `name` and a
`value`, and whose normalized quantity value cannot reach `int()` as a
non-empty list or dict, every failure path (validation, parsing,
persistence) is translated into a returned response envelope; outside those
shapes the underlying runtime error escapes as an unhandled fault (for
example a sequence element without a `name` key). -/
theorem handler_total_on_handled_events (event : List (String × JVal)) (db : DbBehavior)
    (now : Nat) (h : eventHandled event = true) :
    ∃ env eff, lambda_handler event db now = .ok (env, eff) := by
  rw [eventHandled] at h
  cases hget : dictGet event "parameters" with
  | none =>
      refine handler_ok_of_params event [] db now ?_ rfl
      rw [hget]
      rfl
  | some v =>
      rw [hget] at h
      cases v with
      | dict kvs =>
          refine handler_ok_of_params event kvs db now ?_ ?_
          · rw [hget]; rfl
          · simpa using h
      | lst ps =>
          rw [Bool.and_eq_true] at h
          obtain ⟨hall, hsafe⟩ := h
          refine handler_ok_of_params event (pairsOf ps) db now ?_ ?_
          · rw [hget]
            show buildDict ps = .ok (pairsOf ps)
            exact buildDict_eq_pairsOf ps hall
          · exact hsafe
      | s v => exact absurd h (by simp)
      | i v => exact absurd h (by simp)
      | b v => exact absurd h (by simp)
      | null => exact absurd h (by simp)

/-- Claim C7 witness: the well-formed sample request yields a returned
envelope even when the database connection fails. -/
theorem handler_total_on_handled_events_witness :
    ∃ env eff,
      lambda_handler sampleEventOk (DbBehavior.connectFail "server closed") 1 =
        .ok (env, eff) :=
  handler_total_on_handled_events sampleEventOk (DbBehavior.connectFail "server closed") 1
    (by decide)

/-- A failed persistence step commits no row. -/
theorem persist_err_rows (db : DbBehavior) (r : Row) (e : String) (eff : Effects)
    (h : persist db r = (some e, eff)) : eff.rows = [] := by
  cases db <;> simp [persist, dbAttempt] at h <;> simp [← h.2]

/-- A successful persistence step commits exactly the given row and closes
both resources once. -/
theorem persist_none_eq (db : DbBehavior) (r : Row) (eff : Effects)
    (h : persist db r = (Option.none, eff)) :
    eff = { rows := [r], connOpened := true, curOpened := true
            connCloses := 1, curCloses := 1 } := by
  cases db <;> simp [persist, dbAttempt] at h
  exact h.symm

/-- Every envelope the handler returns is either an error envelope built by
the shared helper with no row committed, or the success envelope with
exactly one row committed. -/
theorem handler_result_shape (event : List (String × JVal)) (db : DbBehavior) (now : Nat)
    (env : Envelope) (eff : Effects)
    (h : lambda_handler event db now = .ok (env, eff)) :
    (∃ m st, env = agent_error event m st ∧ eff.rows = [])
    ∨ (∃ r i n mc, env = success_response event r i n mc
        ∧ eff.rows = [{ requisition_id := r, item_name := i, material_code := mc
                        quantity := n, created_at := now }]) := by
  unfold lambda_handler at h
  split at h
  · exact absurd h (by simp)
  · dsimp only at h
    split at h
    · rw [Except.ok.injEq, Prod.mk.injEq] at h
      left
      exact ⟨_, 400, h.1.symm, by rw [← h.2]; rfl⟩
    · split at h
      · rw [Except.ok.injEq, Prod.mk.injEq] at h
        left
        exact ⟨_, 400, h.1.symm, by rw [← h.2]; rfl⟩
      · exact absurd h (by simp)
      · split at h
        · rename_i err eff2 heq
          rw [Except.ok.injEq, Prod.mk.injEq] at h
          left
          refine ⟨_, 500, h.1.symm, ?_⟩
          rw [← h.2]
          exact persist_err_rows _ _ _ _ heq
        · rename_i eff2 heq
          rw [Except.ok.injEq, Prod.mk.injEq] at h
          right
          refine ⟨_, _, _, _, h.1.symm, ?_⟩
          rw [← h.2, persist_none_eq _ _ _ heq]

/-- Claim C8: every response carries messageVersion "1.0" and echoes the
actionGroup and function of the request unchanged; every error envelope carries
the status code as a top-level sibling of the response object (the response
object itself has no status-code slot), defaults to 400, and its body holds
only the TEXT message. -/
theorem envelope_invariants :
    (∀ (ev : List (String × JVal)) (m : String) (st : Nat),
      agent_error ev m st =
        { messageVersion := "1.0"
          response :=
            { actionGroup := (dictGet ev "actionGroup").getD .null
              function := (dictGet ev "function").getD .null
              functionResponse :=
                { responseBody :=
                    { TEXT := { body := m }
                      requisition_id := Option.none
                      item_name := Option.none
                      quantity := Option.none
                      material_code := Option.none } } }
          statusCode := some st })
    ∧ (∀ (ev : List (String × JVal)) (m : String),
      agent_error_default ev m = agent_error ev m 400)
    ∧ (∀ (ev : List (String × JVal)) (db : DbBehavior) (now : Nat)
        (env : Envelope) (eff : Effects),
      lambda_handler ev db now = .ok (env, eff) →
      env.messageVersion = "1.0"
        ∧ env.response.actionGroup = (dictGet ev "actionGroup").getD .null
        ∧ env.response.function = (dictGet ev "function").getD .null) := by
  refine ⟨fun ev m st => rfl, fun ev m => rfl, ?_⟩
  intro ev db now env eff h
  rcases handler_result_shape ev db now env eff h with ⟨m, st, henv, _⟩ | ⟨r, i, n, mc, henv, _⟩
  · subst henv
    exact ⟨rfl, rfl, rfl⟩
  · subst henv
    exact ⟨rfl, rfl, rfl⟩

/-- Claim C8 witness: the envelope returned for the bad-quantity sample
request carries the version marker and both echoes. -/
theorem envelope_invariants_witness :
    (agent_error sampleEventBadQty "Quantity must be an integer" 400).messageVersion = "1.0"
    ∧ (agent_error sampleEventBadQty "Quantity must be an integer" 400).response.actionGroup
        = (dictGet sampleEventBadQty "actionGroup").getD .null
    ∧ (agent_error sampleEventBadQty "Quantity must be an integer" 400).response.function
        = (dictGet sampleEventBadQty "function").getD .null :=
  envelope_invariants.2.2 sampleEventBadQty DbBehavior.ok 5
    (agent_error sampleEventBadQty "Quantity must be an integer" 400) Effects.empty rfl

/-- Claim C9: a returned envelope carries no statusCode exactly when the
invocation succeeded (a row was committed); whenever a statusCode is
present the envelope is one built by the shared error helper.  The envelope
type places the optional status code only at the top level, so an absent
top-level code means no status code at any level. -/
theorem status_code_distinguishes (event : List (String × JVal)) (db : DbBehavior)
    (now : Nat) (env : Envelope) (eff : Effects)
    (h : lambda_handler event db now = .ok (env, eff)) :
    (env.statusCode = Option.none ↔ eff.rows ≠ [])
    ∧ (∀ st, env.statusCode = some st → ∃ m, env = agent_error event m st) := by
  rcases handler_result_shape event db now env eff h with
    ⟨m, st, henv, hrows⟩ | ⟨r, i, n, mc, henv, hrows⟩
  · subst henv
    constructor
    · rw [hrows]
      simp [agent_error]
    · intro st2 hst
      rw [show (agent_error event m st).statusCode = some st from rfl,
        Option.some.injEq] at hst
      exact ⟨m, by rw [hst]⟩
  · subst henv
    constructor
    · rw [hrows]
      simp [success_response]
    · intro st2 hst
      rw [show (success_response event r i n mc).statusCode = Option.none from rfl] at hst
      exact absurd hst (by simp)

/-- Claim C9 witness: the success envelope of the well-formed sample request
has no status code and one committed row. -/
theorem status_code_distinguishes_witness :
    ((success_response sampleEventOk (.s "REQ1") (.s "Bolt") 10 (.s "MC5")).statusCode
        = Option.none
      ↔ ({ rows := [{ requisition_id := .s "REQ1", item_name := .s "Bolt"
                      material_code := .s "MC5", quantity := 10, created_at := 11 }]
           connOpened := true, curOpened := true
           connCloses := 1, curCloses := 1 } : Effects).rows ≠ [])
    ∧ (∀ st, (success_response sampleEventOk (.s "REQ1") (.s "Bolt") 10 (.s "MC5")).statusCode
          = some st →
        ∃ m, success_response sampleEventOk (.s "REQ1") (.s "Bolt") 10 (.s "MC5")
          = agent_error sampleEventOk m st) :=
  status_code_distinguishes sampleEventOk DbBehavior.ok 11
    (success_response sampleEventOk (.s "REQ1") (.s "Bolt") 10 (.s "MC5"))
    { rows := [{ requisition_id := .s "REQ1", item_name := .s "Bolt"
                 material_code := .s "MC5", quantity := 10, created_at := 11 }]
      connOpened := true, curOpened := true, connCloses := 1, curCloses := 1 } rfl

/-- Claim C10: the echoed quantity field and the success message render the
canonical decimal form of the parsed integer, not the raw input string;
inputs the parser tolerates, such as `"007"` or `" +7 "`, are accepted and
echoed back as the normalized form `"7"`, which differs from the supplied
string. -/
theorem quantity_echo_canonical :
    (∀ (event ps : List (String × JVal)) (r i q : String) (n : Int) (now : Nat),
      normalizeParams (dictGet event "parameters") = .ok ps →
      dictGet ps "requisition_id" = some (.s r) → r ≠ "" →
      dictGet ps "item_name" = some (.s i) → i ≠ "" →
      dictGet ps "quantity" = some (.s q) → pyIntOfStr q = some n →
      ∃ env eff, lambda_handler event DbBehavior.ok now = .ok (env, eff)
        ∧ env.response.functionResponse.responseBody.quantity = some (toString n)
        ∧ env.response.functionResponse.responseBody.TEXT.body =
            "✓ Added \x27" ++ i ++ "\x27 (Qty " ++ toString n
              ++ ") to requisition " ++ r ++ ".")
    ∧ pyIntOfStr "007" = some 7
    ∧ pyIntOfStr " +7 " = some 7
    ∧ toString (7 : Int) = "7"
    ∧ ("7" : String) ≠ "007"
    ∧ ("7" : String) ≠ " +7 " := by
  refine ⟨?_, rfl, rfl, rfl, by decide, by decide⟩
  intro event ps r i q n now hps hr hr0 hi hi0 hq hn
  have hcore := handler_valid_core event ps r i q n DbBehavior.ok now hps hr hr0 hi hi0 hq hn
  have hres : lambda_handler event DbBehavior.ok now =
      .ok (success_response event (.s r) (.s i) n
            ((dictGet ps "material_code").getD (.s "")),
          { rows := [{ requisition_id := .s r, item_name := .s i
                       material_code := (dictGet ps "material_code").getD (.s "")
                       quantity := n, created_at := now }]
            connOpened := true, curOpened := true, connCloses := 1, curCloses := 1 }) := by
    rw [hcore]
    simp [persist, dbAttempt]
  exact ⟨_, _, hres, rfl, rfl⟩

/-- Claim C10 witness: quantity `"007"` is accepted and echoed back as
`"7"`. -/
theorem quantity_echo_canonical_witness :
    ∃ env eff, lambda_handler sampleEventPaddedQty DbBehavior.ok 6 = .ok (env, eff)
      ∧ env.response.functionResponse.responseBody.quantity = some (toString (7 : Int))
      ∧ env.response.functionResponse.responseBody.TEXT.body =
          "✓ Added \x27Screw\x27 (Qty " ++ toString (7 : Int)
            ++ ") to requisition R7." :=
  quantity_echo_canonical.1 sampleEventPaddedQty
    [("requisition_id", .s "R7"), ("item_name", .s "Screw"), ("quantity", .s "007")]
    "R7" "Screw" "007" 7 6 rfl rfl (by decide) rfl (by decide) rfl rfl
